import Mathlib

/-!
A shallow embedding of the pywebview desktop shell in `src/index.py` and
`src/python/api.py` (the `Api` bridge object, `get_entrypoint`,
`set_interval` and `update_ticker`), together with proofs of the spec's
claims about it.  Host effects (the save dialog, the filesystem write, the
script-evaluation call, the event used to stop the interval loop) are
passed in as explicit parameters, so every definition is executable.
-/

namespace PathSimGui

/-- Errors a modelled Python operation can raise: `IndexError` from list
indexing, or a generic exception carrying its message. -/
inductive PyError where
  | indexError
  | exception (msg : String)
deriving DecidableEq, Repr

/-- Python list indexing `xs[i]`: raises `IndexError` when out of range. -/
def pyIndex {α : Type} (xs : List α) (i : Nat) : Except PyError α :=
  match xs.get? i with
  | some x => Except.ok x
  | none => Except.error PyError.indexError

/-! ### `pathlib.Path` string normalization (PurePosixPath)

`Path(s)` in `save_content` normalizes the string before the invalid-path
check: components are obtained by splitting on `/`, empty components and
`.` components are dropped, a leading `/` (or exactly two leading slashes)
is kept as the root, and the empty result renders as `"."` — in
particular `str(Path("")) == "."` and `str(Path("/")) == "/"`. -/

/-- Split a character list on `/`, keeping empty components. -/
def splitSlash (acc : List Char) : List Char → List String
  | [] => [String.mk acc.reverse]
  | c :: cs =>
    if c = '/' then String.mk acc.reverse :: splitSlash [] cs
    else splitSlash (c :: acc) cs

/-- The root prefix of a POSIX path: `"//"` for exactly two leading
slashes, `"/"` for one or for three or more, `""` otherwise. -/
def pathRoot : List Char → String
  | '/' :: '/' :: '/' :: _ => "/"
  | '/' :: '/' :: _ => "//"
  | '/' :: _ => "/"
  | _ => ""

/-- Join path components with `/`. -/
def joinSlash : List String → String
  | [] => ""
  | [p] => p
  | p :: ps => p ++ "/" ++ joinSlash ps

/-- `str(pathlib.PurePosixPath(s))`: the normalized form of the path
string `s`. -/
def pathStr (s : String) : String :=
  let cs := s.toList
  let root := pathRoot cs
  let parts := (splitSlash [] cs).filter (fun c => c != "" && c != ".")
  let body := joinSlash parts
  if root = "" && body = "" then "." else root ++ body

/-! ### The save dialog result and `Api.save_content` -/

/-- The value `create_file_dialog` hands back: `None` on cancel, a single
path string, or (a host-platform quirk) a list of path strings. -/
inductive DialogResult where
  | none
  | str (s : String)
  | list (xs : List String)
deriving DecidableEq, Repr

/-- Python truthiness of the dialog result, as tested by `not filename`:
`None`, the empty string and the empty list are falsy. -/
def DialogResult.falsy : DialogResult → Bool
  | .none => true
  | .str s => s == ""
  | .list xs => xs.isEmpty

/-- How the dialog result renders inside the `[DEBUG]` log line. -/
def DialogResult.pyRepr : DialogResult → String
  | .none => "None"
  | .str s => s
  | .list xs => "[" ++ joinSlash xs ++ "]"

/-- What one call to `save_content` did: the log lines it printed, the
path (if any) at which it attempted `filepath.open('w')`, and the
path/content pair (if any) it successfully wrote. -/
structure SaveTrace where
  logs : List String
  attempted : Option String
  written : Option (String × String)
deriving DecidableEq, Repr

/-- `Api.save_content`, from the point where the dialog has returned
`filename`.  `write p c` is the behaviour of the host open/write/close
sequence at path `p` with content `c` (success, or an exception message).
Mirrors the source: the falsiness guard, the list-vs-string
normalization through `Path`, the `'/'`-or-`''` check, and the
`try`/`except` around the write. -/
def save_content_core (filename : DialogResult)
    (write : String → String → Except String Unit) (content : String) :
    Except PyError SaveTrace :=
  let dbg := "[DEBUG] Dialog returned: " ++ filename.pyRepr
  if filename.falsy then
    Except.ok { logs := [dbg, "[ERROR] No filename selected."],
                attempted := none, written := none }
  else
    match (match filename with
           | .list xs => (pyIndex xs 0).map pathStr
           | .str s => Except.ok (pathStr s)
           | .none => Except.error (PyError.exception "TypeError")) with
    | .error e => Except.error e
    | .ok filepath =>
      if filepath = "/" ∨ filepath = "" then
        Except.ok { logs := [dbg, "[ERROR] Invalid filename selected."],
                    attempted := none, written := none }
      else
        match write filepath content with
        | .ok _ =>
          Except.ok { logs := [dbg, "[INFO] Successfully saved to " ++ filepath],
                      attempted := some filepath,
                      written := some (filepath, content) }
        | .error e =>
          Except.ok { logs := [dbg, "[ERROR] Failed to save file: " ++ e],
                      attempted := some filepath, written := none }

/-- A filesystem: contents found at each path, if any. -/
def FS : Type := String → Option String

/-- The filesystem after a save: a successful write replaces the contents
at the written path, anything else leaves the filesystem unchanged. -/
def SaveTrace.applyFS (tr : SaveTrace) (fs : FS) : FS :=
  match tr.written with
  | some pc => fun q => if q = pc.1 then some pc.2 else fs q
  | none => fs

/-! ### The window list and the full bridge methods -/

/-- A webview window; the only state the bridge touches is its fullscreen
flag. -/
structure Window where
  isFullscreen : Bool
deriving DecidableEq, Repr

/-- `window.toggle_fullscreen()`. -/
def toggle_fullscreen (w : Window) : Window :=
  { w with isFullscreen := !w.isFullscreen }

/-- `Api.fullscreen`: `webview.windows[0].toggle_fullscreen()` — the
indexing is unguarded, so an empty window list raises `IndexError`. -/
def Api.fullscreen (windows : List Window) : Except PyError (List Window) :=
  match pyIndex windows 0 with
  | .ok w => Except.ok (toggle_fullscreen w :: windows.tail)
  | .error e => Except.error e

/-- `Api.save_content` in full: `webview.windows[0].create_file_dialog(...)`
indexes the window list unguarded, then runs the body modelled by
`save_content_core`.  `dialog w` is what the dialog opened on window `w`
returns. -/
def Api.save_content (windows : List Window) (dialog : Window → DialogResult)
    (write : String → String → Except String Unit) (content : String) :
    Except PyError SaveTrace :=
  match pyIndex windows 0 with
  | .ok w => save_content_core (dialog w) write content
  | .error e => Except.error e

/-- `Api.ls`: `os.listdir('.')` — a direct pass-through to the host call
on the current working directory; whatever it raises is uncaught. -/
def Api.ls (listdir : String → Except String (List String)) :
    Except String (List String) :=
  listdir "."

/-! ### `get_entrypoint` -/

/-- The three candidate entry documents, in the order the source checks
them: unfrozen development, frozen py2app, generic packaged. -/
def entryCandidates : List String :=
  ["../gui/index.html", "../Resources/gui/index.html", "./gui/index.html"]

/-- `get_entrypoint`: probes the three candidates in order (existence is
checked relative to the script's own directory; `pathExists` is that
check) and returns the first that exists, raising
`Exception('No index.html found')` when none does. -/
def get_entrypoint (pathExists : String → Bool) : Except String String :=
  if pathExists "../gui/index.html" then Except.ok "../gui/index.html"
  else if pathExists "../Resources/gui/index.html" then
    Except.ok "../Resources/gui/index.html"
  else if pathExists "./gui/index.html" then Except.ok "./gui/index.html"
  else Except.error "No index.html found"

/-! ### The ticker and the interval loop -/

/-- The expression `update_ticker` evaluates in the page, for timestamp
`t`: `'window.pywebview.state && window.pywebview.state.set_ticker("%d")'
% time()`. -/
def tickerScript (t : Int) : String :=
  "window.pywebview.state && window.pywebview.state.set_ticker(\"" ++
    toString t ++ "\")"

/-- One firing of `update_ticker`: when at least one window is open it
calls `evaluate_js` on `windows[0]` with the ticker expression (there is
no `try`/`except` around the call).  Returns the list of scripts whose
evaluation was attempted, and the normal-return/raise outcome. -/
def update_ticker (windows : List Window) (t : Int)
    (evalJs : Window → String → Except String Unit) :
    List String × Except PyError Unit :=
  if windows.length > 0 then
    match pyIndex windows 0 with
    | .error e => ([], Except.error e)
    | .ok w =>
      match evalJs w (tickerScript t) with
      | .ok _ => ([tickerScript t], Except.ok ())
      | .error e => ([tickerScript t], Except.error (PyError.exception e))
  else ([], Except.ok ())

/-- The state of the `loop` thread body in `set_interval`. -/
inductive LoopState where
  | running
  | stopped
  | dead (e : PyError)
deriving DecidableEq, Repr

/-- Whether the loop is still iterating. -/
def LoopState.isRunning : LoopState → Bool
  | .running => true
  | _ => false

/-- The loop `while not stopped.wait(interval): function()` after `n`
iterations.  `stoppedAt n` is whether the `stopped` event is set when
wait `n` returns; `f n` is the outcome of the wrapped function at
iteration `n`.  A set event exits the loop; an uncaught exception from
`f` kills the thread. -/
def loopState (stoppedAt : Nat → Bool) (f : Nat → Except PyError Unit) :
    Nat → LoopState
  | 0 => LoopState.running
  | n + 1 =>
    match loopState stoppedAt f n with
    | .running =>
      if stoppedAt n then LoopState.stopped
      else
        match f n with
        | .ok _ => LoopState.running
        | .error e => LoopState.dead e
    | s => s

/-- Whether the wrapped function is invoked during iteration `n` of the
loop: only when the loop is still running and the wait saw the event
unset. -/
def loopInvokes (stoppedAt : Nat → Bool) (f : Nat → Except PyError Unit)
    (n : Nat) : Bool :=
  (loopState stoppedAt f n).isRunning && !(stoppedAt n)

/-- The `wrapper` built by `set_interval`: it starts the loop thread and
returns the `stopped` event as the caller's stop handle.  The first
component is the returned event (its set-state over time is exogenous:
whoever holds the handle may set it); the second is the loop the spawned
thread runs. -/
def set_interval_wrapper (stoppedAt : Nat → Bool)
    (f : Nat → Except PyError Unit) : (Nat → Bool) × (Nat → LoopState) :=
  (stoppedAt, loopState stoppedAt f)

/-! ### Claims about `save_content` -/

/-- Claim C1: for every dialog outcome and every behaviour of the write
step, `save_content` returns normally — the open/write/close failure is
caught by the `try`/`except`, and every other raise point is guarded. -/
theorem save_content_returns_normally (filename : DialogResult)
    (write : String → String → Except String Unit) (content : String) :
    ∃ tr, save_content_core filename write content = Except.ok tr := by
  rcases filename with _ | s | xs
  · exact ⟨_, rfl⟩
  · simp only [save_content_core]
    split
    · exact ⟨_, rfl⟩
    · split
      · exact ⟨_, rfl⟩
      · rcases hw : write (pathStr s) content with u | e <;> exact ⟨_, rfl⟩
  · rcases xs with _ | ⟨x, xs⟩
    · exact ⟨_, rfl⟩
    · simp only [save_content_core, DialogResult.falsy, List.isEmpty, pyIndex,
        List.get?, Except.map, if_false, Bool.false_eq_true]
      split
      · exact ⟨_, rfl⟩
      · rcases hw : write (pathStr x) content with u | e <;> simp [hw]

/-- Claim C2, counterexample: with a dialog stub returning `[""]` and a
write step that succeeds, the invalid-path check does not fire — the
empty string normalizes to `"."` under `Path`, so `save_content` does not
reject as a no-op but writes at `"."`, contradicting the claim that no
file is written for `[""]`. -/
theorem save_content_empty_string_not_rejected :
    (save_content_core (DialogResult.list [""]) (fun _ _ => Except.ok ()) "hello").map
        SaveTrace.written = Except.ok (some (".", "hello"))
    ∧ ¬ ((save_content_core (DialogResult.list [""]) (fun _ _ => Except.ok ()) "hello").map
        SaveTrace.written = Except.ok none) := by
  have h0 : (save_content_core (DialogResult.list [""]) (fun _ _ => Except.ok ()) "hello").map
      SaveTrace.written = Except.ok (some (".", "hello")) := rfl
  refine ⟨h0, fun h => ?_⟩
  rw [h0] at h
  simp at h

/-- Claim C2, amended: `save_content` rejects as a no-op (logs, returns,
attempts no write) when the dialog result is falsy — `None`, `""` or
`[]` — or when the chosen path normalizes to the filesystem root `"/"`;
but a dialog result of `[""]` is NOT rejected: `Path("")` normalizes to
`"."`, so a write at `"."` is attempted. -/
theorem save_content_reject_cases
    (write : String → String → Except String Unit) (content : String) :
    (∀ d : DialogResult, d.falsy = true →
      ∃ tr, save_content_core d write content = Except.ok tr ∧
        tr.attempted = none ∧ tr.written = none ∧
        tr.logs = ["[DEBUG] Dialog returned: " ++ d.pyRepr,
                   "[ERROR] No filename selected."])
    ∧ (∀ x xs, pathStr x = "/" →
      ∃ tr, save_content_core (DialogResult.list (x :: xs)) write content
          = Except.ok tr ∧ tr.attempted = none ∧ tr.written = none)
    ∧ (∀ s, s ≠ "" → pathStr s = "/" →
      ∃ tr, save_content_core (DialogResult.str s) write content
          = Except.ok tr ∧ tr.attempted = none ∧ tr.written = none)
    ∧ (∃ tr, save_content_core (DialogResult.list [""]) write content
          = Except.ok tr ∧ tr.attempted = some ".") := by
  refine ⟨fun d hd => ?_, fun x xs hx => ?_, fun s hs hroot => ?_, ?_⟩
  · simp only [save_content_core, hd, if_true]
    exact ⟨_, rfl, rfl, rfl, rfl⟩
  · simp only [save_content_core, DialogResult.falsy, List.isEmpty, pyIndex,
      List.get?, Except.map, Bool.false_eq_true, if_false, hx]
    simp
  · simp only [save_content_core, DialogResult.falsy, hroot]
    rw [if_neg (by simpa using hs)]
    simp
  · have hdot : pathStr "" = "." := rfl
    simp only [save_content_core, DialogResult.falsy, List.isEmpty, pyIndex,
      List.get?, Except.map, Bool.false_eq_true, if_false, hdot]
    rw [if_neg (by decide)]
    rcases hw : write "." content with u | e <;> exact ⟨_, rfl, rfl⟩

/-- Claim C2, witness for the amended theorem: the `None` dialog result
is rejected with no write attempted. -/
theorem save_content_reject_cases_witness :
    ∃ tr, save_content_core DialogResult.none (fun _ _ => Except.ok ()) "hello"
        = Except.ok tr ∧ tr.attempted = none ∧ tr.written = none ∧
      tr.logs = ["[DEBUG] Dialog returned: " ++ DialogResult.none.pyRepr,
                 "[ERROR] No filename selected."] :=
  (save_content_reject_cases (fun _ _ => Except.ok ()) "hello").1
    DialogResult.none rfl

/-- Claim C5: round-trip of save.  If the dialog returns a valid writable
path — in either shape the code handles, `[p]` or `p` — `save_content`
writes the whole content string there, and the filesystem afterwards
holds exactly that content at that path. -/
theorem save_content_roundtrip (p content : String) (fs : FS)
    (write : String → String → Except String Unit)
    (hnorm : pathStr p = p) (hroot : p ≠ "/") (hempty : p ≠ "")
    (hw : write p content = Except.ok ()) :
    (∃ tr, save_content_core (DialogResult.list [p]) write content = Except.ok tr ∧
      tr.written = some (p, content) ∧ tr.applyFS fs p = some content)
    ∧ (∃ tr, save_content_core (DialogResult.str p) write content = Except.ok tr ∧
      tr.written = some (p, content) ∧ tr.applyFS fs p = some content) := by
  constructor
  · simp only [save_content_core, DialogResult.falsy, List.isEmpty, pyIndex,
      List.get?, Except.map, Bool.false_eq_true, if_false, hnorm]
    rw [if_neg (by simp [hroot, hempty]), hw]
    exact ⟨_, rfl, rfl, by simp [SaveTrace.applyFS]⟩
  · simp only [save_content_core, DialogResult.falsy, hnorm]
    rw [if_neg (by simpa using hempty), if_neg (by simp [hroot, hempty]), hw]
    exact ⟨_, rfl, rfl, by simp [SaveTrace.applyFS]⟩

/-- Claim C5, witness: saving `"hello"` at `"out.txt"` round-trips. -/
theorem save_content_roundtrip_witness :
    ∃ tr, save_content_core (DialogResult.list ["out.txt"])
        (fun _ _ => Except.ok ()) "hello" = Except.ok tr ∧
      tr.written = some ("out.txt", "hello") ∧
      tr.applyFS (fun _ => none) "out.txt" = some "hello" :=
  (save_content_roundtrip "out.txt" "hello" (fun _ => none)
    (fun _ _ => Except.ok ()) rfl (by decide) (by decide) rfl).1

/-- Claim C8: when the dialog returns a non-empty list, only its first
element determines the write attempt and the rejection decision; the
remaining elements are ignored. -/
theorem save_content_uses_first_element (x : String) (xs ys : List String)
    (write : String → String → Except String Unit) (content : String) :
    (save_content_core (DialogResult.list (x :: xs)) write content).map
        (fun tr => (tr.attempted, tr.written))
      = (save_content_core (DialogResult.list [x]) write content).map
        (fun tr => (tr.attempted, tr.written))
    ∧ (save_content_core (DialogResult.list (x :: xs)) write content).map
        (fun tr => (tr.attempted, tr.written))
      = (save_content_core (DialogResult.list (x :: ys)) write content).map
        (fun tr => (tr.attempted, tr.written)) := by
  have key : ∀ zs : List String,
      (save_content_core (DialogResult.list (x :: zs)) write content).map
        (fun tr => (tr.attempted, tr.written))
      = (save_content_core (DialogResult.list [x]) write content).map
        (fun tr => (tr.attempted, tr.written)) := by
    intro zs
    simp only [save_content_core, DialogResult.falsy, List.isEmpty, pyIndex,
      List.get?, Except.map, Bool.false_eq_true, if_false]
    by_cases hx : pathStr x = "/" ∨ pathStr x = ""
    · simp [hx]
    · rcases hw : write (pathStr x) content with u | e <;> simp [hx, hw]
  exact ⟨key xs, (key xs).trans (key ys).symm⟩

/-! ### Claims about `get_entrypoint` and `Api.ls` -/

/-- Claim C3: `get_entrypoint` checks exactly the three candidates of
`entryCandidates` in fixed priority order and returns the first that
exists; it raises when none exists; in particular when only the generic
packaged candidate exists it returns `./gui/index.html`. -/
theorem get_entrypoint_correct (ex : String → Bool) :
    get_entrypoint ex =
      (match entryCandidates.find? (fun p => ex p) with
       | some p => Except.ok p
       | none => Except.error "No index.html found")
    ∧ (ex "../gui/index.html" = false → ex "../Resources/gui/index.html" = false →
       ex "./gui/index.html" = true → get_entrypoint ex = Except.ok "./gui/index.html")
    ∧ ((∀ p, p ∈ entryCandidates → ex p = false) →
       get_entrypoint ex = Except.error "No index.html found") := by
  refine ⟨?_, fun h1 h2 h3 => ?_, fun h => ?_⟩
  · cases h1 : ex "../gui/index.html" <;> cases h2 : ex "../Resources/gui/index.html" <;>
      cases h3 : ex "./gui/index.html" <;>
      simp [get_entrypoint, entryCandidates, List.find?, h1, h2, h3]
  · simp [get_entrypoint, h1, h2, h3]
  · simp [get_entrypoint, h "../gui/index.html" (by simp [entryCandidates]),
      h "../Resources/gui/index.html" (by simp [entryCandidates]),
      h "./gui/index.html" (by simp [entryCandidates])]

/-- Claim C3, witness: on a filesystem where only `./gui/index.html`
exists, the resolver returns it. -/
theorem get_entrypoint_correct_witness :
    get_entrypoint (fun p => p == "./gui/index.html") = Except.ok "./gui/index.html" :=
  (get_entrypoint_correct (fun p => p == "./gui/index.html")).2.1
    (by decide) (by decide) (by decide)

/-- Claim C6: `Api.ls` returns exactly the entry names of the current
working directory (equality, hence also order-independent equality), and
any error of the host call propagates uncaught. -/
theorem ls_correct (listdir : String → Except String (List String))
    (names : List String) (e : String) :
    (listdir "." = Except.ok names →
      ∃ l, Api.ls listdir = Except.ok l ∧ List.Perm l names)
    ∧ (listdir "." = Except.error e → Api.ls listdir = Except.error e) := by
  refine ⟨fun h => ⟨names, ?_, List.Perm.refl names⟩, fun h => ?_⟩ <;>
    simpa [Api.ls] using h

/-- Claim C6, witness: a directory with entries `a`, `b` lists exactly
them. -/
theorem ls_correct_witness :
    ∃ l, Api.ls (fun _ => Except.ok ["a", "b"]) = Except.ok l ∧
      List.Perm l ["a", "b"] :=
  (ls_correct (fun _ => Except.ok ["a", "b"]) ["a", "b"] "").1 rfl

/-! ### Claims about the ticker and the interval loop -/

/-- Claim C9: with zero open windows, `fullscreen` and `save_content`
index `webview.windows[0]` unguarded and raise `IndexError`, while
`update_ticker` checks the window count first and returns normally
without attempting anything. -/
theorem no_window_raises (dialog : Window → DialogResult)
    (write : String → String → Except String Unit) (content : String)
    (t : Int) (evalJs : Window → String → Except String Unit) :
    Api.fullscreen [] = Except.error PyError.indexError
    ∧ Api.save_content [] dialog write content = Except.error PyError.indexError
    ∧ update_ticker [] t evalJs = ([], Except.ok ()) :=
  ⟨rfl, rfl, rfl⟩

/-- Claim C7: at a tick, an evaluation is attempted only when at least
one window is open — with zero windows no script is evaluated — and the
attempted script invokes `set_ticker` on the page state object, guarded
on that object existing, with the string-encoded integer timestamp. -/
theorem update_ticker_correct (windows : List Window) (t : Int)
    (evalJs : Window → String → Except String Unit) :
    (windows = [] → update_ticker windows t evalJs = ([], Except.ok ()))
    ∧ (windows ≠ [] → (update_ticker windows t evalJs).1
        = ["window.pywebview.state && window.pywebview.state.set_ticker(\"" ++
            toString t ++ "\")"]) := by
  constructor
  · rintro rfl; rfl
  · intro h
    rcases windows with _ | ⟨w, ws⟩
    · exact absurd rfl h
    · rw [show ("window.pywebview.state && window.pywebview.state.set_ticker(\"" ++
          toString t ++ "\")") = tickerScript t from rfl]
      rcases hev : evalJs w (tickerScript t) with u | e <;>
        simp [update_ticker, pyIndex, hev]

/-- Claim C7, witness: with one open window the attempted script is the
guarded `set_ticker` expression for timestamp `7`. -/
theorem update_ticker_correct_witness :
    (update_ticker [Window.mk false] 7 (fun _ _ => Except.ok ())).1
      = ["window.pywebview.state && window.pywebview.state.set_ticker(\"" ++
          toString (7 : Int) ++ "\")"] :=
  (update_ticker_correct [Window.mk false] 7 (fun _ _ => Except.ok ())).2 (by simp)

/-- Claim C4, counterexample: `update_ticker` has no `try`/`except`, so
with one open window and a script evaluation that raises, the call does
NOT return normally — the error propagates — and in the interval loop
the thread dies at the first failing tick and never invokes the ticker
again. -/
theorem ticker_failure_propagates :
    (update_ticker [Window.mk false] 0 (fun _ _ => Except.error "boom")).2
      = Except.error (PyError.exception "boom")
    ∧ loopState (fun _ => false)
        (fun n => (update_ticker [Window.mk false] (Int.ofNat n)
          (fun _ _ => Except.error "boom")).2) 2
      = LoopState.dead (PyError.exception "boom")
    ∧ loopInvokes (fun _ => false)
        (fun n => (update_ticker [Window.mk false] (Int.ofNat n)
          (fun _ _ => Except.error "boom")).2) 1
      = false :=
  ⟨rfl, rfl, rfl⟩

/-- Absorption: once the interval loop has left the `running` state it
stays in that state forever. -/
theorem loopState_absorb (stoppedAt : Nat → Bool) (f : Nat → Except PyError Unit)
    (n : Nat) (s : LoopState) (hs : s.isRunning = false)
    (h : loopState stoppedAt f n = s) :
    ∀ m, n ≤ m → loopState stoppedAt f m = s := by
  intro m hm
  induction m with
  | zero =>
    have hn0 : n = 0 := Nat.le_zero.mp hm
    rw [← hn0]; exact h
  | succ k ih =>
    rcases Nat.lt_or_ge n (k + 1) with hlt | hge
    · have hk : loopState stoppedAt f k = s := ih (Nat.lt_succ_iff.mp hlt)
      cases s with
      | running => simp [LoopState.isRunning] at hs
      | stopped => simp [loopState, hk]
      | dead e => simp [loopState, hk]
    · have hn : n = k + 1 := Nat.le_antisymm hm hge
      rw [← hn]; exact h

/-- Claim C4, amended: the ticker push is not wrapped in any
`try`/`except`: a failing `evaluate_js` propagates out of
`update_ticker`, and an uncaught failure at an iteration of the interval
loop kills the loop thread, so the wrapped function is never invoked
again. -/
theorem ticker_failure_kills_loop (w : Window) (ws : List Window) (t : Int)
    (e : String) (evalJs : Window → String → Except String Unit)
    (hfail : evalJs w (tickerScript t) = Except.error e) :
    (update_ticker (w :: ws) t evalJs).2 = Except.error (PyError.exception e)
    ∧ (∀ (stoppedAt : Nat → Bool) (f : Nat → Except PyError Unit) (n : Nat),
        loopState stoppedAt f n = LoopState.running → stoppedAt n = false →
        f n = Except.error (PyError.exception e) →
        ∀ m, n < m → loopState stoppedAt f m = LoopState.dead (PyError.exception e)
          ∧ loopInvokes stoppedAt f m = false) := by
  constructor
  · simp [update_ticker, pyIndex, hfail]
  · intro stoppedAt f n hrun hstop hf m hm
    have hdead : loopState stoppedAt f (n + 1)
        = LoopState.dead (PyError.exception e) := by
      simp [loopState, hrun, hstop, hf]
    have habs := loopState_absorb stoppedAt f (n + 1)
      (LoopState.dead (PyError.exception e)) rfl hdead m hm
    exact ⟨habs, by simp [loopInvokes, habs, LoopState.isRunning]⟩

/-- Claim C4, witness for the amended theorem: a concrete failing
evaluation propagates and the loop is dead from the next iteration on. -/
theorem ticker_failure_kills_loop_witness :
    (update_ticker [Window.mk false] 0 (fun _ _ => Except.error "err")).2
      = Except.error (PyError.exception "err")
    ∧ loopState (fun _ => false)
        (fun _ => Except.error (PyError.exception "err")) 1
      = LoopState.dead (PyError.exception "err")
    ∧ loopInvokes (fun _ => false)
        (fun _ => Except.error (PyError.exception "err")) 1 = false := by
  have h := ticker_failure_kills_loop (Window.mk false) [] 0 "err"
    (fun _ _ => Except.error "err") rfl
  exact ⟨h.1, (h.2 (fun _ => false) (fun _ => Except.error (PyError.exception "err"))
    0 rfl rfl rfl 1 (by decide)).1,
    (h.2 (fun _ => false) (fun _ => Except.error (PyError.exception "err"))
    0 rfl rfl rfl 1 (by decide)).2⟩

/-- Once the loop is no longer running it is still not running one
iteration later. -/
theorem loopState_not_running_succ (stoppedAt : Nat → Bool)
    (f : Nat → Except PyError Unit) (n : Nat)
    (h : (loopState stoppedAt f n).isRunning = false) :
    (loopState stoppedAt f (n + 1)).isRunning = false := by
  rcases hs : loopState stoppedAt f n with _ | _ | e
  · rw [hs] at h; simp [LoopState.isRunning] at h
  · simp [loopState, hs, LoopState.isRunning]
  · simp [loopState, hs, LoopState.isRunning]

/-- If the stop event is set when wait `k` returns, the loop is not
running at iteration `k + 1`. -/
theorem loopState_stops (stoppedAt : Nat → Bool) (f : Nat → Except PyError Unit)
    (k : Nat) (hk : stoppedAt k = true) :
    (loopState stoppedAt f (k + 1)).isRunning = false := by
  rcases hs : loopState stoppedAt f k with _ | _ | e
  · simp [loopState, hs, hk, LoopState.isRunning]
  · simp [loopState, hs, LoopState.isRunning]
  · simp [loopState, hs, LoopState.isRunning]

/-- Claim C10: the `set_interval` wrapper returns the stop event, and
once that event is set (events are never cleared, hence the monotonicity
hypothesis) the loop invokes the wrapped function no further time and has
exited by the following iteration. -/
theorem set_interval_stop_event (stoppedAt : Nat → Bool)
    (f : Nat → Except PyError Unit) (k : Nat)
    (hmono : ∀ m n, m ≤ n → stoppedAt m = true → stoppedAt n = true)
    (hk : stoppedAt k = true) :
    (set_interval_wrapper stoppedAt f).1 = stoppedAt
    ∧ (∀ n, k ≤ n → loopInvokes stoppedAt f n = false)
    ∧ (∀ n, k < n → ((set_interval_wrapper stoppedAt f).2 n).isRunning = false) := by
  refine ⟨rfl, fun n hn => ?_, fun n hn => ?_⟩
  · simp [loopInvokes, hmono k n hn hk]
  · show (loopState stoppedAt f n).isRunning = false
    induction n with
    | zero => exact absurd hn (by omega)
    | succ m ih =>
      rcases Nat.lt_or_ge k m with h2 | h2
      · exact loopState_not_running_succ stoppedAt f m (ih h2)
      · have hmk : m = k := Nat.le_antisymm h2 (Nat.lt_succ_iff.mp hn)
        rw [hmk]; exact loopState_stops stoppedAt f k hk

/-- Claim C10, witness: with the event set from time `2` on, iteration
`3` does not invoke the function. -/
theorem set_interval_stop_event_witness :
    loopInvokes (fun n => decide (2 ≤ n)) (fun _ => Except.ok ()) 3 = false :=
  ((set_interval_stop_event (fun n => decide (2 ≤ n)) (fun _ => Except.ok ()) 2
    (fun m n hmn hm => by simp only [decide_eq_true_eq] at hm ⊢; omega)
    (by decide)).2.1) 3 (by decide)

end PathSimGui
